import Mathlib

/-!
Verification development for the FocusMode study-tracking application.

The development shallowly embeds:
* the session-page dual-source controller
  (`src/pages/sesi-belajar/sesi-belajar-page.js`): `loadSessions`,
  `handleSessionSubmit`, `deleteSession`, `startSession`, `completeSession`,
  `escapeHtml`, `getStatusText`, and the session-card rendering;
* the serverless HTTP handler (`api/index.js`): `sanitizeInput`,
  `validateEmail`, `authenticateToken` and the route dispatch;
* the Remote Client (`Api`) and Local Store (`DB`) collaborators, whose
  implementation files are not part of the sources; they are modelled from
  the specification's interface descriptions (sections 4.2 and 4.3).

JavaScript numbers that the code only ever uses as integers are modelled as
`Nat`/`Int`; timestamps (ISO strings / SQL `TIMESTAMP`) are modelled as `Nat`
instants; fallible calls return `Except Unit`.
-/

namespace FocusMode


/-- A study-session entity.  Fields mirror the union of the local-store shape
(`createdAt`, camelCase) and the `study_sessions` table row; absent fields
(JS `undefined` / SQL `NULL`) are `none`, absent text fields are `""`. -/
structure Session where
  id : Option Nat
  title : String
  subject : String
  duration : Int
  status : String
  description : String
  notes : String
  createdAt : Option Nat
  updatedAt : Option Nat
  startedAt : Option Nat
  completedAt : Option Nat
deriving DecidableEq, Repr

/-! ## escapeHtml (sesi-belajar-page.js lines 10-17) -/

/-- One global-regex replace pass: every occurrence of character `c` is
replaced by the character list `r` (JS `String.replace(/c/g, r)`). -/
def replChar (c : Char) (r : List Char) : List Char → List Char
  | [] => []
  | x :: xs => (if x = c then r else [x]) ++ replChar c r xs

/-- The apostrophe character (written via its code point). -/
def aposChar : Char := Char.ofNat 39

/-- The double-quote character (written via its code point). -/
def quoteChar : Char := Char.ofNat 34

/-- `escapeHtml` from the session page: five sequential global replaces, in
source order `&`, `<`, `>`, `"`, `'`. -/
def escapeHtml (s : List Char) : List Char :=
  replChar aposChar ("&#039;".toList)
    (replChar quoteChar ("&quot;".toList)
      (replChar '>' ("&gt;".toList)
        (replChar '<' ("&lt;".toList)
          (replChar '&' ("&amp;".toList) s))))

/-! ## sanitizeInput (api/index.js lines 28-31) -/

/-- A dynamically typed JavaScript value, as far as `sanitizeInput`
distinguishes them. -/
inductive JsVal where
  | str (s : String)
  | num (n : Int)
  | boolean (b : Bool)
  | null
  | undef
deriving DecidableEq, Repr

/-- JS `String.prototype.trim`, characterwise: drop leading and trailing
whitespace. -/
def trimChars (l : List Char) : List Char :=
  ((l.dropWhile Char.isWhitespace).reverse.dropWhile Char.isWhitespace).reverse

/-- JS `String.prototype.trim` on a string. -/
def trimStr (s : String) : String := String.mk (trimChars s.toList)

/-- `input.trim().slice(0, 500)` on a string. -/
def sanitizeStr (s : String) : String :=
  String.mk ((trimStr s).toList.take 500)

/-- `sanitizeInput`: non-strings pass through unchanged, strings are trimmed
and truncated to 500 characters. -/
def sanitizeInput : JsVal → JsVal
  | .str s => .str (sanitizeStr s)
  | v => v

/-! ## Session-card rendering (sesi-belajar-page.js lines 119-198) -/

/-- The decimal digit character for `d`. -/
def digitChar (d : Nat) : Char := Char.ofNat (48 + d)

/-- Fuel-indexed decimal rendering helper. -/
def natStrGo : Nat → Nat → List Char
  | 0, _ => []
  | fuel + 1, n =>
    if n < 10 then [digitChar n]
    else natStrGo fuel (n / 10) ++ [digitChar (n % 10)]

/-- Decimal rendering of a natural number (JS template-literal coercion of a
non-negative number). -/
def natStr (n : Nat) : List Char := natStrGo (n + 1) n

/-- JS template-literal coercion of a (possibly negative) integer. -/
def intStr : Int → List Char
  | .ofNat n => natStr n
  | .negSucc n => '-' :: natStr (n + 1)

/-- JS template interpolation of `session.id`: an `undefined` id prints as
the literal text `undefined`. -/
def idStr : Option Nat → List Char
  | none => "undefined".toList
  | some n => natStr n

/-- `new Date(t).toLocaleDateString` with the id-ID locale, abstracted to the
timestamp's numeral: a missing timestamp prints as `Invalid Date`, a present
one as digits (the real output is digits and separator punctuation; neither
contains markup characters). -/
def dateStr : Option Nat → List Char
  | none => "Invalid Date".toList
  | some t => natStr t

/-- `getStatusText` from the session page: the `statusMap` lookup with the
raw status as fallback. -/
def getStatusText (status : String) : String :=
  if status = "planned" then "Direncanakan"
  else if status = "inprogress" then "Sedang Berlangsung"
  else if status = "completed" then "Selesai"
  else status

/-- The HTML of one session card, as produced by `renderSessions`
(lines 142-186): fixed template chunks concatenated with the interpolated
fields.  `title`, `subject`, `description` and `notes` pass through
`escapeHtml`; `status` (class attribute and `getStatusText` fallback), the
id, the duration and the creation date are interpolated raw. -/
def sessionCardHtml (s : Session) : List Char :=
  ("<div class=\"session-card\" data-id=\"").toList ++ idStr s.id ++ ("\">").toList
  ++ ("<div class=\"session-header\"><h3>").toList ++ escapeHtml s.title.toList
  ++ ("</h3>").toList
  ++ ("<span class=\"session-status ").toList ++ s.status.toList ++ ("\">").toList
  ++ (getStatusText s.status).toList ++ ("</span></div>").toList
  ++ ("<div class=\"session-details\"><p><strong>Mata Pelajaran:</strong> ").toList
  ++ escapeHtml s.subject.toList ++ ("</p>").toList
  ++ ("<p><strong>Durasi:</strong> ").toList ++ intStr s.duration
  ++ (" menit</p>").toList
  ++ ("<p><strong>Dibuat:</strong> ").toList ++ dateStr s.createdAt ++ ("</p>").toList
  ++ (if s.description ≠ "" then
        ("<p><strong>Deskripsi:</strong> ").toList
          ++ escapeHtml s.description.toList ++ ("</p>").toList
      else [])
  ++ (if s.notes ≠ "" then
        ("<p><strong>Catatan:</strong> ").toList
          ++ escapeHtml s.notes.toList ++ ("</p>").toList
      else [])
  ++ ("</div><div class=\"session-actions\">").toList
  ++ ("<button class=\"action-btn edit-btn\" data-id=\"").toList ++ idStr s.id
  ++ ("\">Edit</button>").toList
  ++ ("<button class=\"action-btn delete-btn\" data-id=\"").toList ++ idStr s.id
  ++ ("\">Hapus</button>").toList
  ++ (if s.status = "planned" then
        ("<button class=\"action-btn start-btn\" data-id=\"").toList ++ idStr s.id
          ++ ("\">Mulai</button>").toList
      else [])
  ++ (if s.status = "inprogress" then
        ("<button class=\"action-btn complete-btn\" data-id=\"").toList ++ idStr s.id
          ++ ("\">Selesai</button>").toList
      else [])
  ++ ("</div></div>").toList

/-- The action buttons rendered on a session card (renderSessions lines
167-184): Edit and Hapus always, Mulai only for a planned session, Selesai
only for an inprogress one. -/
def sessionCardButtons (s : Session) : List String :=
  ["edit", "delete"]
    ++ (if s.status = "planned" then ["start"] else [])
    ++ (if s.status = "inprogress" then ["complete"] else [])

/-- Number of occurrences of character `c` in `l`. -/
def countCh (c : Char) (l : List Char) : Nat :=
  (l.filter (fun x => x == c)).length

/-! ## Dual-source controller state -/

/-- Outcome oracle for the fallible collaborator calls: one flag per Remote
Client operation (false = network/auth failure on that call) and one for the
Local Store's storage medium. -/
structure Oracle where
  getAllOk : Bool
  createOk : Bool
  updateOk : Bool
  deleteOk : Bool
  startOk : Bool
  completeOk : Bool
  localOk : Bool
deriving DecidableEq, Repr

/-- All Remote Client calls succeed. -/
def remoteAllOk (o : Oracle) : Bool :=
  o.getAllOk && o.createOk && o.updateOk && o.deleteOk && o.startOk && o.completeOk

/-- The on-device persistent store's sessions collection plus its id counter
for locally generated identifiers. -/
structure LocalStore where
  sessions : List Session
  nextId : Nat
deriving DecidableEq, Repr

/-- The remote database's sessions rows plus the SERIAL id counter. -/
structure RemoteDb where
  rows : List Session
  nextId : Nat
deriving DecidableEq, Repr

/-- The page controller's state: authentication flag (`Api.auth.isLoggedIn`),
the in-memory collection `this.sessions`, and both backing stores. -/
structure AppState where
  loggedIn : Bool
  memory : List Session
  store : LocalStore
  remote : RemoteDb
deriving DecidableEq, Repr

/-- The creation-time sort key of a session. -/
def ckey (s : Session) : Nat := s.createdAt.getD 0

/-- `ORDER BY created_at DESC` of GET /sessions (api/index.js lines 179-183). -/
def sortByCreatedDesc (l : List Session) : List Session :=
  l.insertionSort (fun a b => ckey b ≤ ckey a)

/-- Replace the first entity whose id matches `i` by `e`. -/
def patchById (i : Nat) (e : Session) : List Session → List Session
  | [] => []
  | x :: xs => if x.id == some i then e :: xs else x :: patchById i e xs

/-- The controller's in-memory patch after a local write:
`findIndex` on the id followed by element assignment when found
(sesi-belajar-page.js lines 400-404, 492-495, 542-545). -/
def patchMemory (i : Nat) (saved : Session) (mem : List Session) : List Session :=
  match mem.findIdx? (fun s => s.id == some i) with
  | some ix => mem.set ix saved
  | none => mem

/-- The session form's submitted fields (handleSessionSubmit lines 365-371);
the notes textarea feeds the `description` field. -/
structure FormData where
  title : String
  subject : String
  duration : Int
  status : String
  description : String
deriving DecidableEq, Repr

/-! ## Local Store collaborator (spec-modelled) -/

/-- Modelled from the spec: `DB.getAll` of the Local Store collaborator
(section 4.3) — the implementation file `src/js/db.js` is not among the
sources.  Returns the stored collection; fails only on a storage-medium
error, modelled by the `localOk` flag. -/
def dbGetAll (o : Oracle) (st : LocalStore) : Except Unit (List Session) :=
  if o.localOk then .ok st.sessions else .error ()

/-- Modelled from the spec: `DB.set` (section 4.3) — inserts when the entity
has no id, assigning a locally generated identifier, else overwrites the
matching id; returns the saved entity. -/
def dbSet (o : Oracle) (st : LocalStore) (s : Session) :
    Except Unit (Session × LocalStore) :=
  if o.localOk then
    match s.id with
    | none =>
      let saved := { s with id := some st.nextId }
      .ok (saved, { sessions := st.sessions ++ [saved], nextId := st.nextId + 1 })
    | some i =>
      .ok (s, { sessions := patchById i s st.sessions, nextId := st.nextId })
  else .error ()

/-- Modelled from the spec: `DB.delete` (section 4.3) — removes the matching
id; a non-existent id is a no-op. -/
def dbDelete (o : Oracle) (st : LocalStore) (i : Nat) : Except Unit LocalStore :=
  if o.localOk then
    .ok { sessions := st.sessions.filter (fun s => s.id != some i),
          nextId := st.nextId }
  else .error ()

/-! ## Remote Client collaborator (spec-modelled client, server semantics
from api/index.js and the Database class where those routes exist) -/

/-- Modelled from the spec: `Api.sessions.getAll` (section 4.2; server route
GET /sessions, api/index.js lines 175-184).  Fails on a network/auth error,
otherwise returns the rows ordered by creation time descending. -/
def apiGetAll (o : Oracle) (db : RemoteDb) : Except Unit (List Session) :=
  if o.getAllOk then .ok (sortByCreatedDesc db.rows) else .error ()

/-- The row INSERTed by POST /sessions (api/index.js lines 186-211):
sanitized text fields, duration defaulting to 25 when falsy, status
defaulting to planned, server-generated id and timestamps. -/
def serverNewSession (d : FormData) (now : Nat) (newId : Nat) : Session :=
  { id := some newId
    title := sanitizeStr d.title
    subject := if d.subject = "" then "" else sanitizeStr d.subject
    duration := if d.duration = 0 then 25 else d.duration
    status := if d.status = "" then "planned" else sanitizeStr d.status
    description := if d.description = "" then "" else sanitizeStr d.description
    notes := ""
    createdAt := some now
    updatedAt := some now
    startedAt := none
    completedAt := none }

/-- Modelled from the spec: `Api.sessions.create` (section 4.2; server route
POST /sessions).  Fails on a network/auth error or when the server rejects a
missing title (400); otherwise inserts and returns the new id. -/
def apiCreate (o : Oracle) (db : RemoteDb) (d : FormData) (now : Nat) :
    Except Unit (Nat × RemoteDb) :=
  if o.createOk then
    if d.title = "" then .error ()
    else .ok (db.nextId,
      { rows := db.rows ++ [serverNewSession d now db.nextId]
        nextId := db.nextId + 1 })
  else .error ()

/-- The column SET of `Database.updateSession`: title, description, subject,
duration, status, updated_at. -/
def updateRow (d : FormData) (now : Nat) (r : Session) : Session :=
  { r with title := d.title, description := d.description,
           subject := d.subject, duration := d.duration, status := d.status,
           updatedAt := some now }

/-- Modelled from the spec: `Api.sessions.update` (section 4.2; server
semantics per `Database.updateSession`: UPDATE of the matching id). -/
def apiUpdate (o : Oracle) (db : RemoteDb) (i : Nat) (d : FormData)
    (now : Nat) : Except Unit RemoteDb :=
  if o.updateOk then
    .ok { db with rows := db.rows.map (fun r =>
            if r.id == some i then updateRow d now r else r) }
  else .error ()

/-- Modelled from the spec: `Api.sessions.delete` (section 4.2) — fails on a
network/auth error, and per the spec's edge case a non-existent id yields a
404-derived error; otherwise deletes the matching row. -/
def apiDelete (o : Oracle) (db : RemoteDb) (i : Nat) : Except Unit RemoteDb :=
  if o.deleteOk then
    if db.rows.any (fun r => r.id == some i) then
      .ok { db with rows := db.rows.filter (fun r => r.id != some i) }
    else .error ()
  else .error ()

/-- Modelled from the spec: `Api.sessions.start` (section 4.2; server
semantics per `Database.startSession`: unconditional UPDATE to inprogress
with started_at). -/
def apiStart (o : Oracle) (db : RemoteDb) (i : Nat) (now : Nat) :
    Except Unit RemoteDb :=
  if o.startOk then
    .ok { db with rows := db.rows.map (fun r =>
      if r.id == some i then
        { r with status := "inprogress", startedAt := some now,
                 updatedAt := some now }
      else r) }
  else .error ()

/-- Modelled from the spec: `Api.sessions.complete` (section 4.2; server
semantics per `Database.completeSession`: unconditional UPDATE to completed
with completed_at; the duration argument is passed but not used by the
UPDATE). -/
def apiComplete (o : Oracle) (db : RemoteDb) (i : Nat) (_dur : Int)
    (now : Nat) : Except Unit RemoteDb :=
  if o.completeOk then
    .ok { db with rows := db.rows.map (fun r =>
      if r.id == some i then
        { r with status := "completed", completedAt := some now,
                 updatedAt := some now }
      else r) }
  else .error ()

/-! ## Controller operations (sesi-belajar-page.js) -/

/-- An observable effect of a controller operation: a collaborator call
(recorded when the call is attempted) or a toast notification dispatched to
the View. -/
inductive Effect where
  | apiGetAllE
  | apiCreateE
  | apiUpdateE
  | apiDeleteE
  | apiStartE
  | apiCompleteE
  | dbGetAllE
  | dbSetE
  | dbDeleteE
  | toastSuccess (msg : String)
  | toastError (msg : String)
deriving DecidableEq, Repr

/-- Whether an effect is a Remote Client (network) call. -/
def isApiEffect : Effect → Bool
  | .apiGetAllE | .apiCreateE | .apiUpdateE | .apiDeleteE
  | .apiStartE | .apiCompleteE => true
  | _ => false

/-- Whether an effect writes the Local Store. -/
def isLocalWrite : Effect → Bool
  | .dbSetE | .dbDeleteE => true
  | _ => false

/-- Whether an effect is an error toast. -/
def isToastError : Effect → Bool
  | .toastError _ => true
  | _ => false

/-- `loadSessions` (lines 96-117): authenticated reads go to the Remote
Client, falling back to the Local Store inside the catch; unauthenticated
reads go to the Local Store, with the catch retrying the Local Store once
more before surfacing the fatal error toast. -/
def loadSessions (o : Oracle) (st : AppState) : AppState × List Effect :=
  if st.loggedIn then
    match apiGetAll o st.remote with
    | .ok rows => ({ st with memory := rows }, [.apiGetAllE])
    | .error _ =>
      match dbGetAll o st.store with
      | .ok rows => ({ st with memory := rows }, [.apiGetAllE, .dbGetAllE])
      | .error _ =>
        (st, [.apiGetAllE, .dbGetAllE, .toastError "Gagal memuat sesi belajar"])
  else
    match dbGetAll o st.store with
    | .ok rows => ({ st with memory := rows }, [.dbGetAllE])
    | .error _ =>
      match dbGetAll o st.store with
      | .ok rows => ({ st with memory := rows }, [.dbGetAllE, .dbGetAllE])
      | .error _ =>
        (st, [.dbGetAllE, .dbGetAllE, .toastError "Gagal memuat sesi belajar"])

/-- `handleSessionSubmit` (lines 361-421).  `editId` is the form's
`dataset.editId`.  Authenticated: remote update/create then a full
`getAll` reload; on any failure the catch shows the error toast and calls
`loadSessions`.  Unauthenticated: `DB.set` then an incremental in-memory
patch (assignment at the found index for an edit, push for a create). -/
def handleSessionSubmit (o : Oracle) (now : Nat) (editId : Option Nat)
    (d : FormData) (st : AppState) : AppState × List Effect :=
  if st.loggedIn then
    match editId with
    | some i =>
      match apiUpdate o st.remote i d now with
      | .error _ =>
        let r := loadSessions o st
        (r.1, [.apiUpdateE, .toastError "Gagal menyimpan sesi"] ++ r.2)
      | .ok rdb =>
        match apiGetAll o rdb with
        | .ok rows =>
          ({ st with remote := rdb, memory := rows },
           [.apiUpdateE, .apiGetAllE, .toastSuccess "Sesi berhasil diperbarui"])
        | .error _ =>
          let r := loadSessions o { st with remote := rdb }
          (r.1, [.apiUpdateE, .apiGetAllE,
                 .toastError "Gagal menyimpan sesi"] ++ r.2)
    | none =>
      match apiCreate o st.remote d now with
      | .error _ =>
        let r := loadSessions o st
        (r.1, [.apiCreateE, .toastError "Gagal menyimpan sesi"] ++ r.2)
      | .ok (_, rdb) =>
        match apiGetAll o rdb with
        | .ok rows =>
          ({ st with remote := rdb, memory := rows },
           [.apiCreateE, .apiGetAllE, .toastSuccess "Sesi berhasil dibuat"])
        | .error _ =>
          let r := loadSessions o { st with remote := rdb }
          (r.1, [.apiCreateE, .apiGetAllE,
                 .toastError "Gagal menyimpan sesi"] ++ r.2)
  else
    match editId with
    | some i =>
      let sd : Session :=
        { id := some i, title := d.title, subject := d.subject,
          duration := d.duration, status := d.status,
          description := d.description, notes := "", createdAt := none,
          updatedAt := some now, startedAt := none, completedAt := none }
      match dbSet o st.store sd with
      | .ok (saved, store2) =>
        ({ st with memory := patchMemory i saved st.memory, store := store2 },
         [.dbSetE, .toastSuccess "Sesi berhasil diperbarui"])
      | .error _ =>
        let r := loadSessions o st
        (r.1, [.dbSetE, .toastError "Gagal menyimpan sesi"] ++ r.2)
    | none =>
      let sd : Session :=
        { id := none, title := d.title, subject := d.subject,
          duration := d.duration, status := d.status,
          description := d.description, notes := "", createdAt := some now,
          updatedAt := none, startedAt := none, completedAt := none }
      match dbSet o st.store sd with
      | .ok (saved, store2) =>
        ({ st with memory := st.memory ++ [saved], store := store2 },
         [.dbSetE, .toastSuccess "Sesi berhasil dibuat"])
      | .error _ =>
        let r := loadSessions o st
        (r.1, [.dbSetE, .toastError "Gagal menyimpan sesi"] ++ r.2)

/-- `deleteSession` (lines 430-463).  The user confirmation dialog is the
`confirmed` argument.  Authenticated: remote delete then full reload;
unauthenticated: `DB.delete` then an in-memory filter. -/
def deleteSession (o : Oracle) (confirmed : Bool) (i : Nat) (st : AppState) :
    AppState × List Effect :=
  if !confirmed then (st, [])
  else if st.loggedIn then
    match apiDelete o st.remote i with
    | .error _ =>
      let r := loadSessions o st
      (r.1, [.apiDeleteE, .toastError "Gagal menghapus sesi"] ++ r.2)
    | .ok rdb =>
      match apiGetAll o rdb with
      | .ok rows =>
        ({ st with remote := rdb, memory := rows },
         [.apiDeleteE, .apiGetAllE, .toastSuccess "Sesi berhasil dihapus"])
      | .error _ =>
        let r := loadSessions o { st with remote := rdb }
        (r.1, [.apiDeleteE, .apiGetAllE,
               .toastError "Gagal menghapus sesi"] ++ r.2)
  else
    match dbDelete o st.store i with
    | .ok store2 =>
      ({ st with store := store2,
                 memory := st.memory.filter (fun s => s.id != some i) },
       [.dbDeleteE, .toastSuccess "Sesi berhasil dihapus"])
    | .error _ =>
      let r := loadSessions o st
      (r.1, [.dbDeleteE, .toastError "Gagal menghapus sesi"] ++ r.2)

/-- `startSession` (lines 465-513).  Aborts with a not-found toast when the
id is not in memory.  Unauthenticated: the found session object is mutated
in place (so the in-memory element changes even if `DB.set` then throws),
stored via `DB.set`, and re-assigned at its index. -/
def startSession (o : Oracle) (now : Nat) (i : Nat) (st : AppState) :
    AppState × List Effect :=
  match st.memory.find? (fun s => s.id == some i) with
  | none => (st, [.toastError "Sesi tidak ditemukan"])
  | some s =>
    if st.loggedIn then
      match apiStart o st.remote i now with
      | .error _ =>
        let r := loadSessions o st
        (r.1, [.apiStartE, .toastError "Gagal memulai sesi"] ++ r.2)
      | .ok rdb =>
        match apiGetAll o rdb with
        | .ok rows =>
          ({ st with remote := rdb, memory := rows },
           [.apiStartE, .apiGetAllE, .toastSuccess "Sesi berhasil dimulai"])
        | .error _ =>
          let r := loadSessions o { st with remote := rdb }
          (r.1, [.apiStartE, .apiGetAllE,
                 .toastError "Gagal memulai sesi"] ++ r.2)
    else
      let s2 := { s with status := "inprogress", startedAt := some now }
      let memA := patchMemory i s2 st.memory
      match dbSet o st.store s2 with
      | .ok (_, store2) =>
        ({ st with memory := memA, store := store2 },
         [.dbSetE, .toastSuccess "Sesi berhasil dimulai"])
      | .error _ =>
        let r := loadSessions o { st with memory := memA }
        (r.1, [.dbSetE, .toastError "Gagal memulai sesi"] ++ r.2)

/-- `completeSession` (lines 515-558), the completed counterpart of
`startSession`; the remote call passes the session's duration. -/
def completeSession (o : Oracle) (now : Nat) (i : Nat) (st : AppState) :
    AppState × List Effect :=
  match st.memory.find? (fun s => s.id == some i) with
  | none => (st, [.toastError "Sesi tidak ditemukan"])
  | some s =>
    if st.loggedIn then
      match apiComplete o st.remote i s.duration now with
      | .error _ =>
        let r := loadSessions o st
        (r.1, [.apiCompleteE, .toastError "Gagal menyelesaikan sesi"] ++ r.2)
      | .ok rdb =>
        match apiGetAll o rdb with
        | .ok rows =>
          ({ st with remote := rdb, memory := rows },
           [.apiCompleteE, .apiGetAllE,
            .toastSuccess "Sesi berhasil diselesaikan"])
        | .error _ =>
          let r := loadSessions o { st with remote := rdb }
          (r.1, [.apiCompleteE, .apiGetAllE,
                 .toastError "Gagal menyelesaikan sesi"] ++ r.2)
    else
      let s2 := { s with status := "completed", completedAt := some now }
      let memA := patchMemory i s2 st.memory
      match dbSet o st.store s2 with
      | .ok (_, store2) =>
        ({ st with memory := memA, store := store2 },
         [.dbSetE, .toastSuccess "Sesi berhasil diselesaikan"])
      | .error _ =>
        let r := loadSessions o { st with memory := memA }
        (r.1, [.dbSetE, .toastError "Gagal menyelesaikan sesi"] ++ r.2)

/-- The status filter applied before display (renderSessions lines 121-126). -/
def displayedSessions (filterVal : String) (l : List Session) : List Session :=
  if filterVal = "all" then l else l.filter (fun s => s.status == filterVal)

/-- A mutation operation of the controller, as dispatched by the event
listeners. -/
inductive MutOp where
  | createOp (d : FormData)
  | updateOp (i : Nat) (d : FormData)
  | deleteOp (confirmed : Bool) (i : Nat)
  | startOp (i : Nat)
  | completeOp (i : Nat)
deriving DecidableEq, Repr

/-- Run one mutation operation. -/
def runMut (o : Oracle) (now : Nat) : MutOp → AppState → AppState × List Effect
  | .createOp d => handleSessionSubmit o now none d
  | .updateOp i d => handleSessionSubmit o now (some i) d
  | .deleteOp c i => deleteSession o c i
  | .startOp i => startSession o now i
  | .completeOp i => completeSession o now i

/-- Whether the operation passes the user-confirmation gate (only delete has
one). -/
def opConfirmed : MutOp → Bool
  | .deleteOp c _ => c
  | _ => true

/-- Whether the oracle fails the Remote Client call this operation issues. -/
def opRemoteFails (o : Oracle) : MutOp → Bool
  | .createOp _ => !o.createOk
  | .updateOp _ _ => !o.updateOk
  | .deleteOp _ _ => !o.deleteOk
  | .startOp _ => !o.startOk
  | .completeOp _ => !o.completeOk

/-- Ids are pairwise distinct in the collection. -/
def idsNodup (l : List Session) : Prop :=
  l.Pairwise (fun a b => a.id ≠ b.id)

/-! ## Serverless HTTP handler (api/index.js) -/

/-- A row of the users table (the columns the handler touches). -/
structure User where
  id : Nat
  name : String
  email : String
  password : String
  avatar : String
deriving DecidableEq, Repr

/-- A row of the study_sessions table (the columns the handler touches). -/
structure SessionRow where
  id : Nat
  userId : Nat
  title : String
  description : String
  subject : String
  duration : Int
  status : String
  createdAt : Nat
deriving DecidableEq, Repr

/-- A row of the notes table (the columns the handler touches). -/
structure NoteRow where
  id : Nat
  userId : Nat
  title : String
  content : String
  category : String
  createdAt : Nat
deriving DecidableEq, Repr

/-- The server-side PostgreSQL database with its SERIAL counters. -/
structure ServerDb where
  users : List User
  sessions : List SessionRow
  notes : List NoteRow
  nextUserId : Nat
  nextSessionId : Nat
  nextNoteId : Nat
deriving DecidableEq, Repr

/-- A bearer token as jwt.verify sees it. -/
inductive Token where
  | valid (uid : Nat)
  | invalid
deriving DecidableEq, Repr

/-- An incoming HTTP request: path (after the /api strip), method, the
Authorization bearer token (`none` when the header or token is missing) and
the JSON body fields (`none` when absent). -/
structure ApiReq where
  path : String
  method : String
  authHeader : Option Token
  name : Option String
  email : Option String
  password : Option String
  title : Option String
  description : Option String
  subject : Option String
  duration : Option Int
  status : Option String
  content : Option String
  category : Option String
deriving DecidableEq, Repr

/-- JS falsiness of an optional string body field (absent or empty). -/
def falsyStr : Option String → Bool
  | none => true
  | some s => s == ""

/-- A JSON response body: an object (field names paired with stringified
values) or an array of rows. -/
inductive Body where
  | obj (fields : List (String × String))
  | arrSessions (rows : List SessionRow)
  | arrNotes (rows : List NoteRow)
deriving DecidableEq, Repr

/-- An HTTP response. -/
structure ApiResp where
  status : Nat
  body : Body
deriving DecidableEq, Repr

/-- Whether an object body carries the given key. -/
def bodyHasKey (k : String) : Body → Bool
  | .obj fields => fields.any (fun f => f.1 == k)
  | _ => false

/-- Result of the authentication middleware. -/
inductive AuthResult where
  | err (error : String) (status : Nat)
  | okUser (uid : Nat)
deriving DecidableEq, Repr

/-- `authenticateToken` (api/index.js lines 39-53): missing token gives 401
with error `Access token required`, a token jwt.verify rejects gives 403
with `Invalid token`. -/
def authenticateToken (req : ApiReq) : AuthResult :=
  match req.authHeader with
  | none => .err "Access token required" 401
  | some .invalid => .err "Invalid token" 403
  | some (.valid uid) => .okUser uid

/-- A character the email regex's `[^\s@]` class accepts. -/
def emailCharOk (c : Char) : Bool := !(c == '@') && !c.isWhitespace

/-- `validateEmail` (lines 33-36): the test of the anchored regex
one-or-more `[^\s@]`, `@`, one-or-more `[^\s@]`, `.`, one-or-more `[^\s@]`;
since the class excludes `@`, a match splits at the unique `@` with the
domain part holding an interior dot. -/
def validateEmail (e : String) : Bool :=
  let l := e.toList
  match l.findIdx? (fun c => c == '@') with
  | none => false
  | some i =>
    let a := l.take i
    let b := l.drop (i + 1)
    !a.isEmpty && a.all emailCharOk && !b.isEmpty && b.all emailCharOk
      && ((b.drop 1).dropLast.contains '.')

/-- bcrypt.hash modelled as injective tagging; the digest's content is
irrelevant to the embedded properties. -/
def bcryptHash (p : String) : String := "hashed:" ++ p

/-- bcrypt.compare against `bcryptHash`. -/
def bcryptCompare (p hash : String) : Bool := hash == "hashed:" ++ p

/-- jwt.sign modelled as an opaque token string derived from the user id. -/
def jwtSign (uid : Nat) : String := "token:" ++ String.mk (natStr uid)

/-- `email.toLowerCase()`, modelled characterwise. -/
def toLowerStr (s : String) : String := String.mk (s.toList.map Char.toLower)

/-- `name.charAt(0).toUpperCase()`; the empty string's charAt(0) is the
empty string. -/
def avatarOf (nm : String) : String :=
  match nm.toList with
  | [] => ""
  | c :: _ => String.mk [c.toUpper]

/-- The catch-all 500 response (lines 275-281). -/
def err500 : ApiResp :=
  { status := 500
    body := .obj [("error", "Internal server error"), ("message", "db error")] }

/-- `ORDER BY created_at DESC` over session rows. -/
def sortRowsByCreatedDesc (l : List SessionRow) : List SessionRow :=
  l.insertionSort (fun a b => b.createdAt ≤ a.createdAt)

/-- `ORDER BY created_at DESC` over note rows. -/
def sortNotesByCreatedDesc (l : List NoteRow) : List NoteRow :=
  l.insertionSort (fun a b => b.createdAt ≤ a.createdAt)

/-- GET /health (api/index.js lines 77-85). -/
def healthRoute (dbOk : Bool) (db : ServerDb) : ApiResp × ServerDb :=
  if !dbOk then (err500, db)
  else ({ status := 200,
          body := .obj [("status", "OK"), ("service", "FocusMode API"),
                        ("database", "Connected")] }, db)

/-- POST /auth/register (lines 88-129). -/
def registerRoute (dbOk : Bool) (req : ApiReq) (db : ServerDb) :
    ApiResp × ServerDb :=
  if falsyStr req.name || falsyStr req.email || falsyStr req.password then
    ({ status := 400,
       body := .obj [("error", "Validation error"),
                     ("message", "All fields are required")] }, db)
  else
    let nm := sanitizeStr (req.name.getD "")
    let email := toLowerStr (sanitizeStr (req.email.getD ""))
    let password := sanitizeStr (req.password.getD "")
    if !validateEmail email then
      ({ status := 400,
         body := .obj [("error", "Validation error"),
                       ("message", "Invalid email format")] }, db)
    else if password.length < 6 then
      ({ status := 400,
         body := .obj [("error", "Validation error"),
                       ("message", "Password must be at least 6 characters")] },
       db)
    else if !dbOk then (err500, db)
    else if db.users.any (fun u => u.email == email) then
      ({ status := 409,
         body := .obj [("error", "User exists"),
                       ("message", "User with this email already exists")] },
       db)
    else
      let newUser : User :=
        { id := db.nextUserId, name := nm, email := email,
          password := bcryptHash password, avatar := avatarOf nm }
      ({ status := 201,
         body := .obj [("message", "User created successfully"),
                       ("user", nm), ("token", jwtSign db.nextUserId)] },
       { db with users := db.users ++ [newUser],
                 nextUserId := db.nextUserId + 1 })

/-- POST /auth/login (lines 132-172). -/
def loginRoute (dbOk : Bool) (req : ApiReq) (db : ServerDb) :
    ApiResp × ServerDb :=
  if falsyStr req.email || falsyStr req.password then
    ({ status := 400,
       body := .obj [("error", "Validation error"),
                     ("message", "Email and password are required")] }, db)
  else
    let email := toLowerStr (sanitizeStr (req.email.getD ""))
    let password := sanitizeStr (req.password.getD "")
    if !dbOk then (err500, db)
    else
      match db.users.find? (fun u => u.email == email) with
      | none =>
        ({ status := 401,
           body := .obj [("error", "Authentication failed"),
                         ("message", "Invalid email or password")] }, db)
      | some user =>
        if !bcryptCompare password user.password then
          ({ status := 401,
             body := .obj [("error", "Authentication failed"),
                           ("message", "Invalid email or password")] }, db)
        else
          ({ status := 200,
             body := .obj [("message", "Login successful"),
                           ("user", user.name), ("token", jwtSign user.id)] },
           db)

/-- GET /sessions (lines 175-184). -/
def sessionsGetRoute (dbOk : Bool) (req : ApiReq) (db : ServerDb) :
    ApiResp × ServerDb :=
  match authenticateToken req with
  | .err e s => ({ status := s, body := .obj [("error", e)] }, db)
  | .okUser uid =>
    if !dbOk then (err500, db)
    else
      ({ status := 200,
         body := .arrSessions (sortRowsByCreatedDesc
           (db.sessions.filter (fun r => r.userId == uid))) }, db)

/-- POST /sessions (lines 186-211). -/
def sessionsPostRoute (dbOk : Bool) (now : Nat) (req : ApiReq)
    (db : ServerDb) : ApiResp × ServerDb :=
  match authenticateToken req with
  | .err e s => ({ status := s, body := .obj [("error", e)] }, db)
  | .okUser uid =>
    if falsyStr req.title then
      ({ status := 400,
         body := .obj [("error", "Validation error"),
                       ("message", "Title is required")] }, db)
    else
      let title := sanitizeStr (req.title.getD "")
      let description :=
        if falsyStr req.description then ""
        else sanitizeStr (req.description.getD "")
      let subject :=
        if falsyStr req.subject then "" else sanitizeStr (req.subject.getD "")
      let duration : Int :=
        match req.duration with
        | none => 25
        | some x => if x = 0 then 25 else x
      let status :=
        if falsyStr req.status then "planned"
        else sanitizeStr (req.status.getD "")
      if !dbOk then (err500, db)
      else
        let row : SessionRow :=
          { id := db.nextSessionId, userId := uid, title := title,
            description := description, subject := subject,
            duration := duration, status := status, createdAt := now }
        ({ status := 201,
           body := .obj [("message", "Session created successfully"),
                         ("id", String.mk (natStr db.nextSessionId))] },
         { db with sessions := db.sessions ++ [row],
                   nextSessionId := db.nextSessionId + 1 })

/-- GET /notes (lines 214-223). -/
def notesGetRoute (dbOk : Bool) (req : ApiReq) (db : ServerDb) :
    ApiResp × ServerDb :=
  match authenticateToken req with
  | .err e s => ({ status := s, body := .obj [("error", e)] }, db)
  | .okUser uid =>
    if !dbOk then (err500, db)
    else
      ({ status := 200,
         body := .arrNotes (sortNotesByCreatedDesc
           (db.notes.filter (fun r => r.userId == uid))) }, db)

/-- POST /notes (lines 225-248). -/
def notesPostRoute (dbOk : Bool) (now : Nat) (req : ApiReq) (db : ServerDb) :
    ApiResp × ServerDb :=
  match authenticateToken req with
  | .err e s => ({ status := s, body := .obj [("error", e)] }, db)
  | .okUser uid =>
    if falsyStr req.title || falsyStr req.content then
      ({ status := 400,
         body := .obj [("error", "Validation error"),
                       ("message", "Title and content are required")] }, db)
    else
      let title := sanitizeStr (req.title.getD "")
      let content := sanitizeStr (req.content.getD "")
      let category :=
        if falsyStr req.category then "study"
        else sanitizeStr (req.category.getD "")
      if !dbOk then (err500, db)
      else
        let row : NoteRow :=
          { id := db.nextNoteId, userId := uid, title := title,
            content := content, category := category, createdAt := now }
        ({ status := 201,
           body := .obj [("message", "Note created successfully"),
                         ("id", String.mk (natStr db.nextNoteId))] },
         { db with notes := db.notes ++ [row],
                   nextNoteId := db.nextNoteId + 1 })

/-- GET /stats/today (lines 251-267). -/
def statsRoute (dbOk : Bool) (now : Nat) (req : ApiReq) (db : ServerDb) :
    ApiResp × ServerDb :=
  match authenticateToken req with
  | .err e s => ({ status := s, body := .obj [("error", e)] }, db)
  | .okUser uid =>
    if !dbOk then (err500, db)
    else
      let rows := db.sessions.filter (fun r =>
        r.userId == uid && r.createdAt == now && r.status == "completed")
      ({ status := 200,
         body := .obj
           [("total_minutes", String.mk (intStr (rows.map (fun r => r.duration)).sum)),
            ("total_sessions", String.mk (natStr rows.length))] }, db)

/-- The serverless handler (api/index.js lines 56-282): the route dispatch.
`dbOk = false` makes every SQL query throw, which the catch-all turns into
the 500 response; `now` is the server clock (also standing for CURRENT_DATE
in the stats route, with day granularity abstracted to the instant).
Returns the response and the updated database. -/
def handler (dbOk : Bool) (now : Nat) (req : ApiReq) (db : ServerDb) :
    ApiResp × ServerDb :=
  if req.path = "/health" ∧ req.method = "GET" then healthRoute dbOk db
  else if req.path = "/auth/register" ∧ req.method = "POST" then
    registerRoute dbOk req db
  else if req.path = "/auth/login" ∧ req.method = "POST" then
    loginRoute dbOk req db
  else if req.path = "/sessions" ∧ req.method = "GET" then
    sessionsGetRoute dbOk req db
  else if req.path = "/sessions" ∧ req.method = "POST" then
    sessionsPostRoute dbOk now req db
  else if req.path = "/notes" ∧ req.method = "GET" then
    notesGetRoute dbOk req db
  else if req.path = "/notes" ∧ req.method = "POST" then
    notesPostRoute dbOk now req db
  else if req.path = "/stats/today" ∧ req.method = "GET" then
    statsRoute dbOk now req db
  else
    ({ status := 404,
       body := .obj [("error", "Not found"),
                     ("message", "Route " ++ req.path ++ " not found")] }, db)

/-! ## Concrete sample inputs -/

/-- The all-success oracle. -/
def allOk : Oracle :=
  { getAllOk := true, createOk := true, updateOk := true, deleteOk := true,
    startOk := true, completeOk := true, localOk := true }

/-- Oracle with the remote `getAll` failing and the Local Store healthy. -/
def oRemoteDown : Oracle := { allOk with getAllOk := false }

/-- Oracle with every collaborator call failing. -/
def oAllDown : Oracle :=
  { getAllOk := false, createOk := false, updateOk := false,
    deleteOk := false, startOk := false, completeOk := false,
    localOk := false }

/-- A sample form submission. -/
def dMath : FormData :=
  { title := "Math", subject := "Algebra", duration := 25,
    status := "planned", description := "" }

/-- A second sample form submission. -/
def dPhys : FormData :=
  { title := "Physics", subject := "Mechanics", duration := 30,
    status := "planned", description := "" }

/-- The empty unauthenticated application state. -/
def st0 : AppState :=
  { loggedIn := false, memory := [],
    store := { sessions := [], nextId := 1 },
    remote := { rows := [], nextId := 1 } }

/-- A locally stored planned session. -/
def sLoc : Session :=
  { id := some 1, title := "Math", subject := "Algebra", duration := 25,
    status := "planned", description := "", notes := "",
    createdAt := some 10, updatedAt := none, startedAt := none,
    completedAt := none }

/-- A completed local session. -/
def sDone : Session := { sLoc with id := some 2, status := "completed" }

/-- An authenticated state whose Local Store holds `sLoc`. -/
def stAuthLocal : AppState :=
  { loggedIn := true, memory := [],
    store := { sessions := [sLoc], nextId := 2 },
    remote := { rows := [], nextId := 1 } }

/-- An unauthenticated state holding one completed session, in memory and in
the Local Store. -/
def stDone : AppState :=
  { loggedIn := false, memory := [sDone],
    store := { sessions := [sDone], nextId := 3 },
    remote := { rows := [], nextId := 1 } }

/-- The state after two unauthenticated creates (at instants 1 and 2) and a
reload. -/
def st6 : AppState :=
  (loadSessions allOk
    (runMut allOk 2 (.createOp dPhys)
      (runMut allOk 1 (.createOp dMath) st0).1).1).1

/-- The collection the session list displays in state `st6`. -/
def disp6 : List Session := displayedSessions "all" st6.memory

/-- A session card sample: planned, with a description, markup characters in
the user text fields. -/
def s9c : Session :=
  { id := some 7, title := "Algebra <review>", subject := "Math & Science",
    duration := 40, status := "planned", description := "chapter 1",
    notes := "", createdAt := some 5, updatedAt := none, startedAt := none,
    completedAt := none }

/-- An empty server database. -/
def dbEmpty : ServerDb :=
  { users := [], sessions := [], notes := [],
    nextUserId := 1, nextSessionId := 1, nextNoteId := 1 }

/-- A request with an all-absent body: GET /sessions with no token. -/
def reqBlank : ApiReq :=
  { path := "/sessions", method := "GET", authHeader := none, name := none,
    email := none, password := none, title := none, description := none,
    subject := none, duration := none, status := none, content := none,
    category := none }

/-- POST /sessions with a valid token and a title. -/
def reqPostSession : ApiReq :=
  { reqBlank with
      method := "POST"
      authHeader := some (Token.valid 1)
      title := some "Math session"
      description := some "desc"
      subject := some "Math"
      duration := some 30
      status := some "planned" }

/-! ## Supporting lemmas -/

theorem not_mem_replChar_self {c : Char} {r : List Char} (hr : c ∉ r) :
    ∀ xs : List Char, c ∉ replChar c r xs := by
  intro xs
  induction xs with
  | nil => simp [replChar]
  | cons x xs ih =>
    simp only [replChar, List.mem_append]
    rintro (h | h)
    · by_cases hx : x = c
      · simp [hx] at h; exact hr h
      · simp [hx] at h; exact hx (h ▸ rfl)
    · exact ih h

theorem not_mem_replChar_of_not_mem {a c : Char} {r : List Char}
    (hr : a ∉ r) : ∀ xs : List Char, a ∉ xs → a ∉ replChar c r xs := by
  intro xs
  induction xs with
  | nil => simp [replChar]
  | cons x xs ih =>
    intro hxs
    simp only [List.mem_cons, not_or] at hxs
    simp only [replChar, List.mem_append]
    rintro (h | h)
    · by_cases hx : x = c
      · simp [hx] at h; exact hr h
      · simp [hx] at h; exact hxs.1 (h ▸ rfl)
    · exact ih hxs.2 h

/-- None of the four markup-significant characters survives `escapeHtml`. -/
theorem escapeHtml_no_markup (s : List Char) :
    '<' ∉ escapeHtml s ∧ '>' ∉ escapeHtml s ∧
    quoteChar ∉ escapeHtml s ∧ aposChar ∉ escapeHtml s := by
  unfold escapeHtml
  have h1 : '<' ∉ replChar '<' ("&lt;".toList) (replChar '&' ("&amp;".toList) s) :=
    not_mem_replChar_self (by decide) _
  have h2 : '<' ∉ replChar '>' ("&gt;".toList)
      (replChar '<' ("&lt;".toList) (replChar '&' ("&amp;".toList) s)) :=
    not_mem_replChar_of_not_mem (by decide) _ h1
  have h2b : '>' ∉ replChar '>' ("&gt;".toList)
      (replChar '<' ("&lt;".toList) (replChar '&' ("&amp;".toList) s)) :=
    not_mem_replChar_self (by decide) _
  have h3 : '<' ∉ replChar quoteChar ("&quot;".toList) _ :=
    not_mem_replChar_of_not_mem (by decide) _ h2
  have h3b : '>' ∉ replChar quoteChar ("&quot;".toList) _ :=
    not_mem_replChar_of_not_mem (by decide) _ h2b
  have h3c : quoteChar ∉ replChar quoteChar ("&quot;".toList)
      (replChar '>' ("&gt;".toList)
        (replChar '<' ("&lt;".toList) (replChar '&' ("&amp;".toList) s))) :=
    not_mem_replChar_self (by decide) _
  refine ⟨?_, ?_, ?_, ?_⟩
  · exact not_mem_replChar_of_not_mem (by decide) _ h3
  · exact not_mem_replChar_of_not_mem (by decide) _ h3b
  · exact not_mem_replChar_of_not_mem (by decide) _ h3c
  · exact not_mem_replChar_self (by decide) _

theorem sanitizeStr_length_le (s : String) : (sanitizeStr s).length ≤ 500 := by
  have h : (sanitizeStr s).length = ((trimStr s).toList.take 500).length := rfl
  rw [h]
  exact List.length_take_le 500 (trimStr s).toList

theorem sanitizeStr_toList_prefix (s : String) :
    (sanitizeStr s).toList <+: (trimStr s).toList := by
  simpa [sanitizeStr] using List.take_prefix 500 (trimStr s).toList

theorem sanitizeStr_of_short (s : String) (h : (trimStr s).length ≤ 500) :
    sanitizeStr s = trimStr s := by
  have h2 : (trimStr s).toList.length ≤ 500 := h
  show String.mk ((trimStr s).toList.take 500) = trimStr s
  rw [List.take_of_length_le h2]
  rfl

theorem trimChars_infix (l : List Char) : trimChars l <:+: l := by
  have h1 : trimChars l <+: l.dropWhile Char.isWhitespace := by
    have := List.dropWhile_suffix (l := (l.dropWhile Char.isWhitespace).reverse)
      (p := Char.isWhitespace)
    unfold trimChars
    rw [← List.reverse_suffix] at *
    simpa using this
  exact h1.isInfix.trans (List.dropWhile_suffix Char.isWhitespace).isInfix

theorem countCh_append (c : Char) (a b : List Char) :
    countCh c (a ++ b) = countCh c a + countCh c b := by
  simp [countCh, List.filter_append]

theorem countCh_eq_zero {c : Char} {l : List Char} (h : c ∉ l) :
    countCh c l = 0 := by
  simp only [countCh, List.length_eq_zero, List.filter_eq_nil_iff]
  intro a ha
  simp only [beq_iff_eq]
  exact fun he => h (he ▸ ha)

theorem digitChar_ne_lt {d : Nat} (h : d < 10) : digitChar d ≠ '<' := by
  interval_cases d <;> decide

theorem not_mem_lt_natStrGo : ∀ (fuel n : Nat), '<' ∉ natStrGo fuel n
  | 0, n => by simp [natStrGo]
  | fuel + 1, n => by
    by_cases h : n < 10
    · simp only [natStrGo, if_pos h, List.mem_singleton]
      exact fun he => digitChar_ne_lt h he.symm
    · simp only [natStrGo, if_neg h, List.mem_append, List.mem_singleton]
      rintro (hm | hm)
      · exact not_mem_lt_natStrGo fuel (n / 10) hm
      · exact digitChar_ne_lt (Nat.mod_lt n (by omega)) hm.symm

theorem not_mem_lt_natStr (n : Nat) : '<' ∉ natStr n :=
  not_mem_lt_natStrGo (n + 1) n

theorem countCh_lt_natStr (n : Nat) : countCh '<' (natStr n) = 0 :=
  countCh_eq_zero (not_mem_lt_natStr n)

theorem countCh_lt_intStr (i : Int) : countCh '<' (intStr i) = 0 := by
  cases i with
  | ofNat n => exact countCh_lt_natStr n
  | negSucc n =>
    simp only [intStr, countCh, List.filter]
    have : (('-' : Char) == '<') = false := by decide
    rw [this]
    exact countCh_lt_natStr (n + 1)

theorem countCh_lt_idStr (o : Option Nat) : countCh '<' (idStr o) = 0 := by
  cases o with
  | none => decide
  | some n => exact countCh_lt_natStr n

theorem countCh_lt_dateStr (o : Option Nat) : countCh '<' (dateStr o) = 0 := by
  cases o with
  | none => decide
  | some n => exact countCh_lt_natStr n

theorem countCh_lt_escapeHtml (l : List Char) :
    countCh '<' (escapeHtml l) = 0 :=
  countCh_eq_zero (escapeHtml_no_markup l).1

theorem countCh_lt_getStatusText {st : String} (h : '<' ∉ st.toList) :
    countCh '<' ((getStatusText st).toList) = 0 := by
  unfold getStatusText
  split_ifs <;> first
    | decide
    | exact countCh_eq_zero h

theorem toLowerStr_length (s : String) : (toLowerStr s).length = s.length := by
  show (s.toList.map Char.toLower).length = s.length
  rw [List.length_map]
  rfl

theorem patchMemory_eq_patchById (i : Nat) (e : Session) :
    ∀ l : List Session, patchMemory i e l = patchById i e l := by
  intro l
  induction l with
  | nil => rfl
  | cons x xs ih =>
    show (match (x :: xs).findIdx? (fun s => s.id == some i) with
          | some ix => (x :: xs).set ix e
          | none => x :: xs) = patchById i e (x :: xs)
    rw [List.findIdx?_cons, patchById]
    by_cases h : (x.id == some i) = true
    · rw [if_pos h, if_pos h]
      rfl
    · rw [if_neg h, if_neg h, List.findIdx?_succ]
      cases hfi : List.findIdx? (fun s => s.id == some i) xs with
      | none =>
        have ih2 : patchById i e xs = xs := by
          rw [← ih]
          show (match xs.findIdx? (fun s => s.id == some i) with
                | some ix => xs.set ix e
                | none => xs) = xs
          rw [hfi]
        rw [ih2]
        rfl
      | some j =>
        have ih2 : patchById i e xs = xs.set j e := by
          rw [← ih]
          show (match xs.findIdx? (fun s => s.id == some i) with
                | some ix => xs.set ix e
                | none => xs) = xs.set j e
          rw [hfi]
        rw [ih2]
        show (x :: xs).set (j + 1) e = x :: xs.set j e
        exact List.set_cons_succ x xs j e

theorem sorted_sortByCreatedDesc (l : List Session) :
    List.Sorted (fun a b => ckey b ≤ ckey a) (sortByCreatedDesc l) := by
  haveI ht : IsTotal Session (fun a b => ckey b ≤ ckey a) :=
    ⟨fun a b => le_total (ckey b) (ckey a)⟩
  haveI htr : IsTrans Session (fun a b => ckey b ≤ ckey a) :=
    ⟨fun a b c hab hbc => le_trans hbc hab⟩
  exact List.sorted_insertionSort _ l

theorem mem_sortByCreatedDesc {s : Session} {l : List Session} :
    s ∈ sortByCreatedDesc l ↔ s ∈ l :=
  (List.perm_insertionSort _ l).mem_iff

theorem eq_of_mem_patchById {i : Nat} {e : Session} :
    ∀ {l : List Session}, idsNodup l →
      ∀ s ∈ patchById i e l, s.id = some i → s = e := by
  intro l
  induction l with
  | nil => intro _ s hs; simp [patchById] at hs
  | cons x xs ih =>
    intro hnd s hs hsid
    rw [idsNodup, List.pairwise_cons] at hnd
    by_cases h : (x.id == some i) = true
    · rw [patchById, if_pos h] at hs
      rcases List.mem_cons.mp hs with h1 | h1
      · exact h1
      · exfalso
        have hx : x.id = some i := by simpa using h
        exact hnd.1 s h1 (by rw [hx, hsid])
    · rw [patchById, if_neg h] at hs
      rcases List.mem_cons.mp hs with h1 | h1
      · exfalso
        subst h1
        simp [hsid] at h
      · exact ih hnd.2 s h1 hsid

theorem eq_upd_of_mem_map_patch {i : Nat} {l : List Session}
    (upd : Session → Session) {s : Session}
    (hs : s ∈ l.map (fun r => if r.id == some i then upd r else r))
    (hsid : s.id = some i) : ∃ r ∈ l, r.id = some i ∧ s = upd r := by
  rcases List.mem_map.mp hs with ⟨r, hr, hf⟩
  by_cases h : (r.id == some i) = true
  · exact ⟨r, hr, by simpa using h, by rw [← hf, if_pos h]⟩
  · exfalso
    rw [if_neg h] at hf
    subst hf
    simp [hsid] at h

theorem emptyStr_length_le : ("" : String).length ≤ 500 := by decide

theorem plannedStr_length_le : ("planned" : String).length ≤ 500 := by decide

theorem studyStr_length_le : ("study" : String).length ≤ 500 := by decide

/-- C9: `escapeHtml` output contains no raw markup character, and on a
session card whose status text is markup-free the number of `<` characters
is the template constant plus its conditional chunks — the escaped user
fields (title, subject, description, notes) contribute none, so user text
cannot inject markup through them. -/
theorem C9_escape_html_rendering (s : Session) (hst : '<' ∉ s.status.toList) :
    (∀ l : List Char, '<' ∉ escapeHtml l ∧ '>' ∉ escapeHtml l
        ∧ quoteChar ∉ escapeHtml l ∧ aposChar ∉ escapeHtml l)
    ∧ countCh '<' (sessionCardHtml s)
        = 28 + (if s.description ≠ "" then 4 else 0)
            + (if s.notes ≠ "" then 4 else 0)
            + (if s.status = "planned" then 2 else 0)
            + (if s.status = "inprogress" then 2 else 0) := by
  refine ⟨escapeHtml_no_markup, ?_⟩
  unfold sessionCardHtml
  split_ifs <;>
    simp only [countCh_append, countCh_lt_escapeHtml, countCh_lt_idStr,
      countCh_lt_intStr, countCh_lt_dateStr, countCh_eq_zero hst,
      countCh_lt_getStatusText hst] <;>
    decide

/-- Witness for C9 at the sample card `s9c`. -/
theorem C9_witness :
    ('<' ∉ s9c.status.toList)
    ∧ countCh '<' (sessionCardHtml s9c)
        = 28 + (if s9c.description ≠ "" then 4 else 0)
            + (if s9c.notes ≠ "" then 4 else 0)
            + (if s9c.status = "planned" then 2 else 0)
            + (if s9c.status = "inprogress" then 2 else 0) :=
  ⟨by decide, (C9_escape_html_rendering s9c (by decide)).2⟩

set_option maxHeartbeats 1600000 in
/-- C10: `sanitizeInput` trims and truncates strings to at most 500
characters and passes non-strings through unchanged; consequently every
text field the handler persists (user names and emails, session titles,
descriptions, subjects and statuses, note titles, contents and categories)
is at most 500 characters long. -/
theorem C10_sanitize_and_persist :
    (∀ s : String,
        sanitizeInput (JsVal.str s) = JsVal.str (sanitizeStr s)
        ∧ (sanitizeStr s).toList <+: (trimStr s).toList
        ∧ trimChars s.toList <:+: s.toList
        ∧ (sanitizeStr s).length ≤ 500
        ∧ ((trimStr s).length ≤ 500 → sanitizeStr s = trimStr s))
    ∧ (∀ v : JsVal, (∀ s : String, v ≠ JsVal.str s) → sanitizeInput v = v)
    ∧ (∀ (dbOk : Bool) (now : Nat) (req : ApiReq) (db : ServerDb),
        (∀ u ∈ (handler dbOk now req db).2.users,
          u ∉ db.users → u.name.length ≤ 500 ∧ u.email.length ≤ 500)
        ∧ (∀ r ∈ (handler dbOk now req db).2.sessions,
          r ∉ db.sessions → r.title.length ≤ 500
            ∧ r.description.length ≤ 500 ∧ r.subject.length ≤ 500
            ∧ r.status.length ≤ 500)
        ∧ (∀ r ∈ (handler dbOk now req db).2.notes,
          r ∉ db.notes → r.title.length ≤ 500 ∧ r.content.length ≤ 500
            ∧ r.category.length ≤ 500)) := by
  refine ⟨?_, ?_, ?_⟩
  · intro s
    exact ⟨rfl, sanitizeStr_toList_prefix s, trimChars_infix s.toList,
      sanitizeStr_length_le s, sanitizeStr_of_short s⟩
  · intro v hv
    cases v with
    | str s => exact absurd rfl (hv s)
    | num n => rfl
    | boolean b => rfl
    | null => rfl
    | undef => rfl
  · intro dbOk now req db
    refine ⟨?_, ?_, ?_⟩
    · intro r hr hnew
      unfold handler at hr
      repeat' split at hr
      all_goals first
        | exact absurd hr hnew
        | (simp only [healthRoute, registerRoute, loginRoute, sessionsGetRoute,
             sessionsPostRoute, notesGetRoute, notesPostRoute, statsRoute] at hr
           repeat' split at hr
           all_goals first
             | exact absurd hr hnew
             | (simp only [List.mem_append, List.mem_singleton] at hr
                rcases hr with hr | hr
                · exact absurd hr hnew
                · subst hr
                  exact ⟨sanitizeStr_length_le _,
                    by rw [toLowerStr_length]; exact sanitizeStr_length_le _⟩))
    · intro r hr hnew
      unfold handler at hr
      repeat' split at hr
      all_goals first
        | exact absurd hr hnew
        | (simp only [healthRoute, registerRoute, loginRoute, sessionsGetRoute,
             sessionsPostRoute, notesGetRoute, notesPostRoute, statsRoute] at hr
           repeat' split at hr
           all_goals first
             | exact absurd hr hnew
             | (simp only [List.mem_append, List.mem_singleton] at hr
                rcases hr with hr | hr
                · exact absurd hr hnew
                · subst hr
                  refine ⟨sanitizeStr_length_le _, ?_, ?_, ?_⟩ <;>
                    first
                    | exact emptyStr_length_le
                    | exact plannedStr_length_le
                    | exact sanitizeStr_length_le _))
    · intro r hr hnew
      unfold handler at hr
      repeat' split at hr
      all_goals first
        | exact absurd hr hnew
        | (simp only [healthRoute, registerRoute, loginRoute, sessionsGetRoute,
             sessionsPostRoute, notesGetRoute, notesPostRoute, statsRoute] at hr
           repeat' split at hr
           all_goals first
             | exact absurd hr hnew
             | (simp only [List.mem_append, List.mem_singleton] at hr
                rcases hr with hr | hr
                · exact absurd hr hnew
                · subst hr
                  refine ⟨sanitizeStr_length_le _, sanitizeStr_length_le _, ?_⟩
                  first
                  | exact studyStr_length_le
                  | exact sanitizeStr_length_le _))

/-- Witness for C10: a non-string passes through, and the session row
inserted by a concrete POST /sessions has bounded text fields. -/
theorem C10_witness :
    sanitizeInput JsVal.null = JsVal.null
    ∧ (∀ r ∈ (handler true 0 reqPostSession dbEmpty).2.sessions,
        r ∉ dbEmpty.sessions → r.title.length ≤ 500
          ∧ r.description.length ≤ 500 ∧ r.subject.length ≤ 500
          ∧ r.status.length ≤ 500) :=
  ⟨C10_sanitize_and_persist.2.1 JsVal.null (fun _ h => JsVal.noConfusion h),
   (C10_sanitize_and_persist.2.2 true 0 reqPostSession dbEmpty).2.1⟩

theorem loadSessions_no_local_write (o : Oracle) (st : AppState) :
    (loadSessions o st).2.all (fun e => !isLocalWrite e) = true := by
  unfold loadSessions
  repeat' split
  all_goals rfl

/-- C3 fails as stated: when the Remote getAll fails and the Local Store is
healthy, the authenticated load falls back to the Local read and re-renders,
but no error notification reaches the View (the error is only logged to the
console). -/
theorem C3_counterexample :
    (loadSessions oRemoteDown stAuthLocal).1.memory = [sLoc]
    ∧ (loadSessions oRemoteDown stAuthLocal).2
        = [Effect.apiGetAllE, Effect.dbGetAllE]
    ∧ (loadSessions oRemoteDown stAuthLocal).2.all
        (fun e => !isToastError e) = true := by decide

/-- C3 (amended): when the Remote getAll throws during an authenticated
load, the controller catches it and falls back to the Local Store read, and
the load never rejects; the View receives the Local collection but no
error notification — the error toast is dispatched only when the Local
fallback also fails. -/
theorem C3_remote_load_falls_back (o : Oracle) (st : AppState)
    (hlog : st.loggedIn = true) (hga : o.getAllOk = false) :
    (o.localOk = true →
      (loadSessions o st).1.memory = st.store.sessions
      ∧ Effect.dbGetAllE ∈ (loadSessions o st).2
      ∧ (loadSessions o st).2.all (fun e => !isToastError e) = true)
    ∧ (o.localOk = false →
      Effect.toastError "Gagal memuat sesi belajar"
        ∈ (loadSessions o st).2) := by
  constructor
  · intro hloc
    simp [loadSessions, hlog, apiGetAll, hga, dbGetAll, hloc, isToastError]
  · intro hloc
    simp [loadSessions, hlog, apiGetAll, hga, dbGetAll, hloc]

/-- Witness for C3 at the concrete authenticated state `stAuthLocal`. -/
theorem C3_witness :
    stAuthLocal.loggedIn = true ∧ oRemoteDown.getAllOk = false
    ∧ oRemoteDown.localOk = true
    ∧ ((loadSessions oRemoteDown stAuthLocal).1.memory
          = stAuthLocal.store.sessions
        ∧ Effect.dbGetAllE ∈ (loadSessions oRemoteDown stAuthLocal).2
        ∧ (loadSessions oRemoteDown stAuthLocal).2.all
            (fun e => !isToastError e) = true) :=
  ⟨rfl, rfl, rfl,
   (C3_remote_load_falls_back oRemoteDown stAuthLocal rfl rfl).1 rfl⟩

/-- C4: while authenticated, no mutation ever writes the Local Store (the
catch paths only read), and a failing Remote write is reported to the user
with an error toast (provided the delete confirmation was given — an
unconfirmed delete issues no call at all). -/
theorem C4_no_silent_write_failover (o : Oracle) (now : Nat) (op : MutOp)
    (st : AppState) (hlog : st.loggedIn = true) :
    ((runMut o now op st).2.all (fun e => !isLocalWrite e) = true)
    ∧ (opRemoteFails o op = true → opConfirmed op = true →
        ∃ m, Effect.toastError m ∈ (runMut o now op st).2) := by
  cases op with
  | createOp d =>
    refine ⟨?_, ?_⟩
    · simp only [runMut, handleSessionSubmit, hlog, if_true]
      repeat' split
      all_goals first
        | rfl
        | (rw [List.all_append, loadSessions_no_local_write]; rfl)
    · intro hfail hconf
      have hc : o.createOk = false := by simpa [opRemoteFails] using hfail
      refine ⟨"Gagal menyimpan sesi", ?_⟩
      simp [runMut, handleSessionSubmit, hlog, apiCreate, hc]
  | updateOp i d =>
    refine ⟨?_, ?_⟩
    · simp only [runMut, handleSessionSubmit, hlog, if_true]
      repeat' split
      all_goals first
        | rfl
        | (rw [List.all_append, loadSessions_no_local_write]; rfl)
    · intro hfail hconf
      have hc : o.updateOk = false := by simpa [opRemoteFails] using hfail
      refine ⟨"Gagal menyimpan sesi", ?_⟩
      simp [runMut, handleSessionSubmit, hlog, apiUpdate, hc]
  | deleteOp c i =>
    refine ⟨?_, ?_⟩
    · simp only [runMut, deleteSession, hlog, if_true]
      repeat' split
      all_goals first
        | rfl
        | (rw [List.all_append, loadSessions_no_local_write]; rfl)
    · intro hfail hconf
      have hc : o.deleteOk = false := by simpa [opRemoteFails] using hfail
      have hcc : c = true := hconf
      refine ⟨"Gagal menghapus sesi", ?_⟩
      simp [runMut, deleteSession, hcc, hlog, apiDelete, hc]
  | startOp i =>
    refine ⟨?_, ?_⟩
    · simp only [runMut, startSession, hlog, if_true]
      repeat' split
      all_goals first
        | rfl
        | (rw [List.all_append, loadSessions_no_local_write]; rfl)
    · intro hfail hconf
      have hc : o.startOk = false := by simpa [opRemoteFails] using hfail
      simp only [runMut, startSession]
      cases hf : st.memory.find? (fun s => s.id == some i) with
      | none => exact ⟨"Sesi tidak ditemukan", by simp [hf]⟩
      | some s0 =>
        exact ⟨"Gagal memulai sesi", by simp [hf, hlog, apiStart, hc]⟩
  | completeOp i =>
    refine ⟨?_, ?_⟩
    · simp only [runMut, completeSession, hlog, if_true]
      repeat' split
      all_goals first
        | rfl
        | (rw [List.all_append, loadSessions_no_local_write]; rfl)
    · intro hfail hconf
      have hc : o.completeOk = false := by simpa [opRemoteFails] using hfail
      simp only [runMut, completeSession]
      cases hf : st.memory.find? (fun s => s.id == some i) with
      | none => exact ⟨"Sesi tidak ditemukan", by simp [hf]⟩
      | some s0 =>
        exact ⟨"Gagal menyelesaikan sesi", by simp [hf, hlog, apiComplete, hc]⟩

/-- Witness for C4: a concrete authenticated delete whose remote call fails. -/
theorem C4_witness :
    stAuthLocal.loggedIn = true
    ∧ ((runMut oAllDown 0 (.deleteOp true 1) stAuthLocal).2.all
          (fun e => !isLocalWrite e) = true)
    ∧ (opRemoteFails oAllDown (.deleteOp true 1) = true)
    ∧ (opConfirmed (.deleteOp true 1) = true)
    ∧ (∃ m, Effect.toastError m
          ∈ (runMut oAllDown 0 (.deleteOp true 1) stAuthLocal).2) :=
  ⟨rfl, (C4_no_silent_write_failover oAllDown 0 (.deleteOp true 1)
      stAuthLocal rfl).1, rfl, rfl,
   (C4_no_silent_write_failover oAllDown 0 (.deleteOp true 1)
      stAuthLocal rfl).2 rfl rfl⟩

/-- C5: an unauthenticated create appends to the Local Store exactly one
record with the locally generated id and the creation timestamp; a
subsequent load returns a collection containing that record, and neither the
create nor the load issues any Remote (network) call. -/
theorem C5_unauth_create_persists (o : Oracle) (now : Nat) (d : FormData)
    (st : AppState) (hlog : st.loggedIn = false) (hloc : o.localOk = true) :
    ∃ rec : Session,
      (handleSessionSubmit o now none d st).1.store.sessions
          = st.store.sessions ++ [rec]
      ∧ rec.id = some st.store.nextId
      ∧ rec.createdAt = some now
      ∧ rec ∈ (loadSessions o (handleSessionSubmit o now none d st).1).1.memory
      ∧ ((handleSessionSubmit o now none d st).2
          ++ (loadSessions o (handleSessionSubmit o now none d st).1).2).all
          (fun e => !isApiEffect e) = true := by
  refine ⟨{ id := some st.store.nextId, title := d.title,
            subject := d.subject, duration := d.duration, status := d.status,
            description := d.description, notes := "",
            createdAt := some now, updatedAt := none, startedAt := none,
            completedAt := none }, ?_, rfl, rfl, ?_, ?_⟩
  · simp [handleSessionSubmit, hlog, dbSet, hloc]
  · simp [handleSessionSubmit, hlog, dbSet, hloc, loadSessions, dbGetAll]
  · simp [handleSessionSubmit, hlog, dbSet, hloc, loadSessions, dbGetAll,
      isApiEffect]

/-- Witness for C5 at the concrete empty unauthenticated state. -/
theorem C5_witness :
    st0.loggedIn = false ∧ allOk.localOk = true
    ∧ ∃ rec : Session,
        (handleSessionSubmit allOk 1 none dMath st0).1.store.sessions
            = st0.store.sessions ++ [rec]
        ∧ rec.id = some st0.store.nextId
        ∧ rec.createdAt = some 1
        ∧ rec ∈ (loadSessions allOk
            (handleSessionSubmit allOk 1 none dMath st0).1).1.memory
        ∧ ((handleSessionSubmit allOk 1 none dMath st0).2
            ++ (loadSessions allOk
                (handleSessionSubmit allOk 1 none dMath st0).1).2).all
            (fun e => !isApiEffect e) = true :=
  ⟨rfl, rfl, C5_unauth_create_persists allOk 1 dMath st0 rfl rfl⟩

/-- C8: deleting a non-existent id reports failure on the Remote path (the
spec-modelled 404-derived client error) and reloads the collection from the
Remote source unchanged; on the Local path the delete is a no-op and the
in-memory collection still equals the Local Store's contents. -/
theorem C8_delete_nonexistent (o : Oracle) (i : Nat) (st : AppState) :
    (st.loggedIn = true → o.deleteOk = true → o.getAllOk = true →
      st.remote.rows.all (fun r => r.id != some i) = true →
      Effect.toastError "Gagal menghapus sesi" ∈ (deleteSession o true i st).2
      ∧ (deleteSession o true i st).1.memory
          = sortByCreatedDesc st.remote.rows
      ∧ (deleteSession o true i st).1.remote = st.remote)
    ∧ (st.loggedIn = false → o.localOk = true →
      st.store.sessions.all (fun s => s.id != some i) = true →
      st.memory = st.store.sessions →
      (deleteSession o true i st).1.store = st.store
      ∧ (deleteSession o true i st).1.memory
          = (deleteSession o true i st).1.store.sessions) := by
  constructor
  · intro hlog hdel hga hnone
    have hany : (st.remote.rows.any (fun r => r.id == some i)) = false := by
      rw [List.any_eq_false]
      intro r hr
      have := List.all_eq_true.mp hnone r hr
      simpa using this
    simp [deleteSession, hlog, apiDelete, hdel, hany, loadSessions,
      apiGetAll, hga]
  · intro hlog hloc hnone hmem
    have hfil : st.store.sessions.filter (fun s => s.id != some i)
        = st.store.sessions :=
      List.filter_eq_self.mpr (List.all_eq_true.mp hnone)
    have hfil2 : st.memory.filter (fun s => s.id != some i) = st.memory := by
      rw [hmem]
      exact hfil
    constructor
    · simp [deleteSession, hlog, dbDelete, hloc, hfil]
    · simp [deleteSession, hlog, dbDelete, hloc, hfil, hfil2, hmem]

/-- Witness for C8 on both source paths at concrete states. -/
theorem C8_witness :
    (stAuthLocal.loggedIn = true ∧ allOk.deleteOk = true
      ∧ allOk.getAllOk = true
      ∧ stAuthLocal.remote.rows.all (fun r => r.id != some 9) = true
      ∧ Effect.toastError "Gagal menghapus sesi"
          ∈ (deleteSession allOk true 9 stAuthLocal).2)
    ∧ (stDone.loggedIn = false ∧ allOk.localOk = true
      ∧ stDone.store.sessions.all (fun s => s.id != some 9) = true
      ∧ stDone.memory = stDone.store.sessions
      ∧ (deleteSession allOk true 9 stDone).1.store = stDone.store) :=
  ⟨⟨rfl, rfl, rfl, by decide,
    ((C8_delete_nonexistent allOk 9 stAuthLocal).1 rfl rfl rfl
      (by decide)).1⟩,
   ⟨rfl, rfl, by decide, rfl,
    ((C8_delete_nonexistent allOk 9 stDone).2 rfl rfl (by decide) rfl).1⟩⟩

/-- C6 fails as stated: after two unauthenticated creates (creation times 1
then 2), the displayed collection is in the Local Store's insertion order —
oldest first — not creation-time descending. -/
theorem C6_counterexample :
    disp6.map ckey = [1, 2]
    ∧ ¬ List.Sorted (fun a b => ckey b ≤ ckey a) disp6 := by
  constructor
  · decide
  · decide

/-- C6 (amended): a collection served by the Remote source (authenticated
load with the remote getAll succeeding) is displayed in creation-time
descending order; a collection served by the Local Store is displayed in the
store's insertion order, with no client-side sort. -/
theorem C6_display_order (o : Oracle) (st : AppState) :
    (st.loggedIn = true → o.getAllOk = true →
      List.Sorted (fun a b => ckey b ≤ ckey a)
        (displayedSessions "all" (loadSessions o st).1.memory))
    ∧ (st.loggedIn = false → o.localOk = true →
      displayedSessions "all" (loadSessions o st).1.memory
        = st.store.sessions) := by
  constructor
  · intro hlog hga
    simp only [loadSessions, hlog, if_true, apiGetAll, hga, displayedSessions,
      if_pos]
    exact sorted_sortByCreatedDesc _
  · intro hlog hloc
    simp [loadSessions, hlog, displayedSessions, dbGetAll, hloc]

/-- Witness for C6 on both source paths at concrete states. -/
theorem C6_witness :
    (stAuthLocal.loggedIn = true ∧ allOk.getAllOk = true
      ∧ List.Sorted (fun a b => ckey b ≤ ckey a)
          (displayedSessions "all" (loadSessions allOk stAuthLocal).1.memory))
    ∧ (st0.loggedIn = false ∧ allOk.localOk = true
      ∧ displayedSessions "all" (loadSessions allOk st0).1.memory
          = st0.store.sessions) :=
  ⟨⟨rfl, rfl, (C6_display_order allOk stAuthLocal).1 rfl rfl⟩,
   ⟨rfl, rfl, (C6_display_order allOk st0).2 rfl rfl⟩⟩

/-- C2 fails as stated: the edit form accepts any status value, so updating
the completed session with status planned moves it backwards, and the
operation reports success. -/
theorem C2_counterexample :
    stDone.memory.map (fun s => s.status) = ["completed"]
    ∧ (runMut allOk 5 (.updateOp 2 dMath) stDone).1.memory.map
        (fun s => s.status) = ["planned"]
    ∧ Effect.toastSuccess "Sesi berhasil diperbarui"
        ∈ (runMut allOk 5 (.updateOp 2 dMath) stDone).2 := by decide

/-- C2 (amended): `start` always sets the target session's status to
inprogress and `complete` to completed, on either source and with no status
guard in the operation itself; the list renders the start button only on
planned cards and the complete button only on inprogress cards; the edit
form accepts an arbitrary status, so `update` can set any status —
including reverse transitions; and `delete` is permitted in every status:
the last two conjuncts place no hypothesis on the target's status and show
a confirmed delete succeeds and removes the id on either source. -/
theorem C2_transitions (o : Oracle) (now i : Nat) (d : FormData)
    (st : AppState) :
    (∀ s : Session, "start" ∈ sessionCardButtons s ↔ s.status = "planned")
    ∧ (∀ s : Session,
        "complete" ∈ sessionCardButtons s ↔ s.status = "inprogress")
    ∧ (st.loggedIn = true → remoteAllOk o = true →
        ∀ s ∈ (startSession o now i st).1.memory,
          s.id = some i → s.status = "inprogress")
    ∧ (st.loggedIn = false → o.localOk = true → idsNodup st.memory →
        ∀ s ∈ (startSession o now i st).1.memory,
          s.id = some i → s.status = "inprogress")
    ∧ (st.loggedIn = true → remoteAllOk o = true →
        ∀ s ∈ (completeSession o now i st).1.memory,
          s.id = some i → s.status = "completed")
    ∧ (st.loggedIn = false → o.localOk = true → idsNodup st.memory →
        ∀ s ∈ (completeSession o now i st).1.memory,
          s.id = some i → s.status = "completed")
    ∧ (st.loggedIn = false → o.localOk = true → idsNodup st.memory →
        ∀ s ∈ (handleSessionSubmit o now (some i) d st).1.memory,
          s.id = some i → s.status = d.status)
    ∧ (st.loggedIn = false → o.localOk = true →
        Effect.toastSuccess "Sesi berhasil dihapus"
          ∈ (deleteSession o true i st).2
        ∧ ∀ s ∈ (deleteSession o true i st).1.memory, s.id ≠ some i)
    ∧ (st.loggedIn = true → remoteAllOk o = true →
        st.remote.rows.any (fun r => r.id == some i) = true →
        Effect.toastSuccess "Sesi berhasil dihapus"
          ∈ (deleteSession o true i st).2
        ∧ ∀ s ∈ (deleteSession o true i st).1.memory, s.id ≠ some i) := by
  refine ⟨?_, ?_, ?_, ?_, ?_, ?_, ?_, ?_, ?_⟩
  · intro s
    unfold sessionCardButtons
    split_ifs with h1 h2 <;> simp_all
  · intro s
    unfold sessionCardButtons
    split_ifs with h1 h2 <;> simp_all
  · intro hlog hall s hs hsid
    have hflags := hall
    rw [remoteAllOk] at hflags
    simp only [Bool.and_eq_true] at hflags
    obtain ⟨⟨⟨⟨⟨hga, hcr⟩, hup⟩, hde⟩, hst⟩, hco⟩ := hflags
    cases hf : st.memory.find? (fun x => x.id == some i) with
    | none =>
      simp only [startSession, hf] at hs
      exact absurd (by simpa using hsid)
        (by simpa using List.find?_eq_none.mp hf s hs)
    | some s0 =>
      simp only [startSession, hf, hlog, if_true, apiStart, hst,
        apiGetAll, hga] at hs
      rw [mem_sortByCreatedDesc] at hs
      obtain ⟨r, hr, hrid, heq⟩ := eq_upd_of_mem_map_patch _ hs hsid
      rw [heq]
  · intro hlog hloc hnd s hs hsid
    cases hf : st.memory.find? (fun x => x.id == some i) with
    | none =>
      simp only [startSession, hf] at hs
      exact absurd (by simpa using hsid)
        (by simpa using List.find?_eq_none.mp hf s hs)
    | some s0 =>
      have hs0id : s0.id = some i := by
        simpa using List.find?_some hf
      simp only [startSession, hf, hlog, Bool.false_eq_true, if_false,
        dbSet, hloc, if_true, hs0id] at hs
      rw [patchMemory_eq_patchById] at hs
      rw [eq_of_mem_patchById hnd s hs hsid]
  · intro hlog hall s hs hsid
    have hflags := hall
    rw [remoteAllOk] at hflags
    simp only [Bool.and_eq_true] at hflags
    obtain ⟨⟨⟨⟨⟨hga, hcr⟩, hup⟩, hde⟩, hst⟩, hco⟩ := hflags
    cases hf : st.memory.find? (fun x => x.id == some i) with
    | none =>
      simp only [completeSession, hf] at hs
      exact absurd (by simpa using hsid)
        (by simpa using List.find?_eq_none.mp hf s hs)
    | some s0 =>
      simp only [completeSession, hf, hlog, if_true, apiComplete, hco,
        apiGetAll, hga] at hs
      rw [mem_sortByCreatedDesc] at hs
      obtain ⟨r, hr, hrid, heq⟩ := eq_upd_of_mem_map_patch _ hs hsid
      rw [heq]
  · intro hlog hloc hnd s hs hsid
    cases hf : st.memory.find? (fun x => x.id == some i) with
    | none =>
      simp only [completeSession, hf] at hs
      exact absurd (by simpa using hsid)
        (by simpa using List.find?_eq_none.mp hf s hs)
    | some s0 =>
      have hs0id : s0.id = some i := by
        simpa using List.find?_some hf
      simp only [completeSession, hf, hlog, Bool.false_eq_true, if_false,
        dbSet, hloc, if_true, hs0id] at hs
      rw [patchMemory_eq_patchById] at hs
      rw [eq_of_mem_patchById hnd s hs hsid]
  · intro hlog hloc hnd s hs hsid
    simp only [handleSessionSubmit, hlog, Bool.false_eq_true, if_false,
      dbSet, hloc, if_true] at hs
    rw [patchMemory_eq_patchById] at hs
    rw [eq_of_mem_patchById hnd s hs hsid]
  · intro hlog hloc
    constructor
    · simp [deleteSession, hlog, dbDelete, hloc]
    · intro s hs
      simp only [deleteSession, Bool.not_true, Bool.false_eq_true, if_false,
        hlog, dbDelete, hloc, if_true] at hs
      have := (List.mem_filter.mp hs).2
      simpa using this
  · intro hlog hall hany
    have hflags := hall
    rw [remoteAllOk] at hflags
    simp only [Bool.and_eq_true] at hflags
    obtain ⟨⟨⟨⟨⟨hga, hcr⟩, hup⟩, hde⟩, hst⟩, hco⟩ := hflags
    constructor
    · simp [deleteSession, hlog, apiDelete, hde, hany, apiGetAll, hga]
    · intro s hs
      simp only [deleteSession, Bool.not_true, Bool.false_eq_true, if_false,
        hlog, if_true, apiDelete, hde, hany, apiGetAll, hga] at hs
      rw [mem_sortByCreatedDesc] at hs
      have := (List.mem_filter.mp hs).2
      simpa using this

/-- Witness for C2: the rendered-button equivalence at a planned session, a
concrete local update that rewrites the status, and a confirmed delete of a
completed session that succeeds. -/
theorem C2_witness :
    ("start" ∈ sessionCardButtons sLoc ↔ sLoc.status = "planned")
    ∧ stDone.loggedIn = false ∧ allOk.localOk = true ∧ idsNodup stDone.memory
    ∧ (∀ s ∈ (handleSessionSubmit allOk 5 (some 2) dMath stDone).1.memory,
        s.id = some 2 → s.status = dMath.status)
    ∧ (Effect.toastSuccess "Sesi berhasil dihapus"
          ∈ (deleteSession allOk true 2 stDone).2
      ∧ ∀ s ∈ (deleteSession allOk true 2 stDone).1.memory,
          s.id ≠ some 2) :=
  ⟨(C2_transitions allOk 5 2 dMath stDone).1 sLoc, rfl, rfl,
   by unfold idsNodup; decide,
   (C2_transitions allOk 5 2 dMath stDone).2.2.2.2.2.2.1 rfl rfl
     (by unfold idsNodup; decide),
   (C2_transitions allOk 5 2 dMath stDone).2.2.2.2.2.2.2.1 rfl rfl⟩

/-- C1 fails as stated: a successful unauthenticated create patches the
in-memory array incrementally (a push) and performs no reload from the
Local Store that served the mutation. -/
theorem C1_counterexample :
    Effect.toastSuccess "Sesi berhasil dibuat"
        ∈ (runMut allOk 1 (.createOp dMath) st0).2
    ∧ Effect.dbGetAllE ∉ (runMut allOk 1 (.createOp dMath) st0).2
    ∧ (runMut allOk 1 (.createOp dMath) st0).2
        = [Effect.dbSetE, Effect.toastSuccess "Sesi berhasil dibuat"] := by
  decide

/-- C1 (amended): after a successful authenticated mutation the in-memory
collection equals the full remote collection (the controller reloads via
getAll); after an unauthenticated mutation the controller patches the
in-memory array incrementally without any Local Store reload, yet when it
was in sync with the Local Store beforehand it still equals the store's
full contents afterwards. -/
theorem C1_collection_after_mutation (o : Oracle) (now : Nat) (op : MutOp)
    (st : AppState) :
    (st.loggedIn = true → remoteAllOk o = true →
      ∀ m, Effect.toastSuccess m ∈ (runMut o now op st).2 →
        (runMut o now op st).1.memory
            = sortByCreatedDesc (runMut o now op st).1.remote.rows
        ∧ Effect.apiGetAllE ∈ (runMut o now op st).2)
    ∧ (st.loggedIn = false → o.localOk = true →
        st.memory = st.store.sessions →
        (runMut o now op st).1.memory
            = (runMut o now op st).1.store.sessions
        ∧ Effect.dbGetAllE ∉ (runMut o now op st).2) := by
  constructor
  · intro hlog hall m hm
    have hflags := hall
    rw [remoteAllOk] at hflags
    simp only [Bool.and_eq_true] at hflags
    obtain ⟨⟨⟨⟨⟨hga, hcr⟩, hup⟩, hde⟩, hst⟩, hco⟩ := hflags
    cases op with
    | createOp d =>
      by_cases htitle : d.title = ""
      · exfalso
        simp [runMut, handleSessionSubmit, hlog, apiCreate, hcr, htitle,
          loadSessions, apiGetAll, hga] at hm
      · constructor <;>
          simp [runMut, handleSessionSubmit, hlog, apiCreate, hcr, htitle,
            apiGetAll, hga]
    | updateOp i d =>
      constructor <;>
        simp [runMut, handleSessionSubmit, hlog, apiUpdate, hup,
          apiGetAll, hga]
    | deleteOp c i =>
      cases c with
      | false =>
        exfalso
        simp [runMut, deleteSession] at hm
      | true =>
        by_cases hany : (st.remote.rows.any (fun r => r.id == some i)) = true
        · constructor <;>
            simp [runMut, deleteSession, hlog, apiDelete, hde, hany,
              apiGetAll, hga]
        · simp only [Bool.not_eq_true] at hany
          exfalso
          simp [runMut, deleteSession, hlog, apiDelete, hde, hany,
            loadSessions, apiGetAll, hga] at hm
    | startOp i =>
      cases hf : st.memory.find? (fun x => x.id == some i) with
      | none =>
        exfalso
        simp [runMut, startSession, hf] at hm
      | some s0 =>
        constructor <;>
          simp [runMut, startSession, hf, hlog, apiStart, hst,
            apiGetAll, hga]
    | completeOp i =>
      cases hf : st.memory.find? (fun x => x.id == some i) with
      | none =>
        exfalso
        simp [runMut, completeSession, hf] at hm
      | some s0 =>
        constructor <;>
          simp [runMut, completeSession, hf, hlog, apiComplete, hco,
            apiGetAll, hga]
  · intro hlog hloc hmem
    cases op with
    | createOp d =>
      constructor
      · simp [runMut, handleSessionSubmit, hlog, dbSet, hloc, hmem]
      · simp [runMut, handleSessionSubmit, hlog, dbSet, hloc]
    | updateOp i d =>
      constructor
      · simp only [runMut, handleSessionSubmit, hlog, Bool.false_eq_true,
          if_false, dbSet, hloc, if_true]
        rw [patchMemory_eq_patchById, hmem]
      · simp [runMut, handleSessionSubmit, hlog, dbSet, hloc]
    | deleteOp c i =>
      cases c with
      | false =>
        constructor
        · simp [runMut, deleteSession, hmem]
        · simp [runMut, deleteSession]
      | true =>
        constructor
        · simp only [runMut, deleteSession, hlog, Bool.false_eq_true,
            if_false, dbDelete, hloc, if_true, Bool.not_true]
          rw [hmem]
        · simp [runMut, deleteSession, hlog, dbDelete, hloc]
    | startOp i =>
      cases hf : st.memory.find? (fun x => x.id == some i) with
      | none =>
        have hf2 : st.store.sessions.find? (fun x => x.id == some i) = none := by
          rw [← hmem]
          exact hf
        constructor
        · simp [runMut, startSession, hf, hf2, hmem]
        · simp [runMut, startSession, hf]
      | some s0 =>
        have hs0id : s0.id = some i := by simpa using List.find?_some hf
        constructor
        · simp only [runMut, startSession, hf, hlog, Bool.false_eq_true,
            if_false, hs0id, dbSet, hloc, if_true]
          rw [patchMemory_eq_patchById, hmem]
        · simp [runMut, startSession, hf, hlog, hs0id, dbSet, hloc]
    | completeOp i =>
      cases hf : st.memory.find? (fun x => x.id == some i) with
      | none =>
        have hf2 : st.store.sessions.find? (fun x => x.id == some i) = none := by
          rw [← hmem]
          exact hf
        constructor
        · simp [runMut, completeSession, hf, hf2, hmem]
        · simp [runMut, completeSession, hf]
      | some s0 =>
        have hs0id : s0.id = some i := by simpa using List.find?_some hf
        constructor
        · simp only [runMut, completeSession, hf, hlog, Bool.false_eq_true,
            if_false, hs0id, dbSet, hloc, if_true]
          rw [patchMemory_eq_patchById, hmem]
        · simp [runMut, completeSession, hf, hlog, hs0id, dbSet, hloc]

/-- Witness for C1: a concrete authenticated update and a concrete
unauthenticated create. -/
theorem C1_witness :
    (stAuthLocal.loggedIn = true ∧ remoteAllOk allOk = true
      ∧ Effect.toastSuccess "Sesi berhasil diperbarui"
          ∈ (runMut allOk 0 (.updateOp 1 dMath) stAuthLocal).2
      ∧ Effect.apiGetAllE
          ∈ (runMut allOk 0 (.updateOp 1 dMath) stAuthLocal).2)
    ∧ (st0.loggedIn = false ∧ allOk.localOk = true
      ∧ st0.memory = st0.store.sessions
      ∧ (runMut allOk 1 (.createOp dMath) st0).1.memory
          = (runMut allOk 1 (.createOp dMath) st0).1.store.sessions
      ∧ Effect.dbGetAllE ∉ (runMut allOk 1 (.createOp dMath) st0).2) :=
  ⟨⟨rfl, rfl, by decide,
    ((C1_collection_after_mutation allOk 0 (.updateOp 1 dMath)
        stAuthLocal).1 rfl rfl "Sesi berhasil diperbarui" (by decide)).2⟩,
   ⟨rfl, rfl, rfl,
    ((C1_collection_after_mutation allOk 1 (.createOp dMath) st0).2
      rfl rfl rfl).1,
    ((C1_collection_after_mutation allOk 1 (.createOp dMath) st0).2
      rfl rfl rfl).2⟩⟩

theorem authResult_err_cases {req : ApiReq} {e : String} {c : Nat}
    (h : authenticateToken req = .err e c) :
    (e = "Access token required" ∧ c = 401)
    ∨ (e = "Invalid token" ∧ c = 403) := by
  unfold authenticateToken at h
  cases hh : req.authHeader with
  | none =>
    rw [hh] at h
    simp only [AuthResult.err.injEq] at h
    exact Or.inl ⟨h.1.symm, h.2.symm⟩
  | some t =>
    cases t with
    | invalid =>
      rw [hh] at h
      simp only [AuthResult.err.injEq] at h
      exact Or.inr ⟨h.1.symm, h.2.symm⟩
    | valid uid =>
      rw [hh] at h
      simp at h

theorem handler_error_shape (dbOk : Bool) (now : Nat) (req : ApiReq)
    (db : ServerDb) :
    (handler dbOk now req db).1.status < 400
    ∨ ((handler dbOk now req db).1.status
          ∈ ([400, 401, 403, 404, 409, 500] : List Nat)
        ∧ bodyHasKey "error" (handler dbOk now req db).1.body = true
        ∧ (bodyHasKey "message" (handler dbOk now req db).1.body = true
            ∨ (handler dbOk now req db).1.body
                = Body.obj [("error", "Access token required")]
            ∨ (handler dbOk now req db).1.body
                = Body.obj [("error", "Invalid token")])) := by
  unfold handler
  repeat' split
  all_goals
    first
    | (left; simp; done)
    | (right; simp [bodyHasKey]; done)
    | (simp only [healthRoute, registerRoute, loginRoute, sessionsGetRoute,
         sessionsPostRoute, notesGetRoute, notesPostRoute, statsRoute,
         err500]
       repeat' split
       all_goals first
         | (left; simp; done)
         | (right; simp [bodyHasKey]; done)
         | (right
            rename_i e c heq
            rcases authResult_err_cases heq with ⟨he, hs⟩ | ⟨he, hs⟩ <;>
              subst he <;> subst hs <;> simp [bodyHasKey]))

/-- C7 fails as stated: a protected route called without a token answers
401 with a body holding only the error field — the message field is absent. -/
theorem C7_counterexample :
    (handler true 0 reqBlank dbEmpty).1.status = 401
    ∧ (handler true 0 reqBlank dbEmpty).1.body
        = Body.obj [("error", "Access token required")]
    ∧ bodyHasKey "message" (handler true 0 reqBlank dbEmpty).1.body
        = false := by decide

/-- C7 (amended): every error response of the handler has status 400, 401,
403, 404, 409 or 500 and a JSON object body carrying the error field; the
body also carries the message field except for the two responses of the
authentication middleware (missing token 401, invalid token 403), which
consist of the bare error object. -/
theorem C7_error_responses (dbOk : Bool) (now : Nat) (req : ApiReq)
    (db : ServerDb) (h : 400 ≤ (handler dbOk now req db).1.status) :
    (handler dbOk now req db).1.status
        ∈ ([400, 401, 403, 404, 409, 500] : List Nat)
    ∧ bodyHasKey "error" (handler dbOk now req db).1.body = true
    ∧ (bodyHasKey "message" (handler dbOk now req db).1.body = true
        ∨ (handler dbOk now req db).1.body
            = Body.obj [("error", "Access token required")]
        ∨ (handler dbOk now req db).1.body
            = Body.obj [("error", "Invalid token")]) := by
  rcases handler_error_shape dbOk now req db with hlt | hok
  · exact absurd h (by omega)
  · exact hok

/-- Witness for C7 at a concrete tokenless request. -/
theorem C7_witness :
    400 ≤ (handler true 0 reqBlank dbEmpty).1.status
    ∧ ((handler true 0 reqBlank dbEmpty).1.status
          ∈ ([400, 401, 403, 404, 409, 500] : List Nat)
      ∧ bodyHasKey "error" (handler true 0 reqBlank dbEmpty).1.body = true
      ∧ (bodyHasKey "message" (handler true 0 reqBlank dbEmpty).1.body = true
          ∨ (handler true 0 reqBlank dbEmpty).1.body
              = Body.obj [("error", "Access token required")]
          ∨ (handler true 0 reqBlank dbEmpty).1.body
              = Body.obj [("error", "Invalid token")])) :=
  ⟨by decide, C7_error_responses true 0 reqBlank dbEmpty (by decide)⟩

end FocusMode
